import Mathlib

/-!
A shallow embedding of the credential/session manager (`AuthManager` in
`src/utils/auth-manager.ts`) of the mcp-sitecore-search-server repository,
together with theorems settling the specification claims about it.

Times are modelled as `Int` milliseconds (JavaScript `Date.now()` values and
arithmetic on them never truncate at zero, so `Nat` subtraction would be
unfaithful).  A settled promise value of declared type `string | null` is
modelled as `Except Unit (Option String)`: `Except.error` is a rejection,
`Except.ok none` is a fulfilled `null`, `Except.ok (some t)` a fulfilled
string.  Network exchanges are parameterised by their outcome
(`Option response`, `none` meaning the HTTP call failed).
-/

namespace SitecoreSearch

/-- Authentication scopes for Sitecore Search APIs (type `AuthScope`). -/
inductive AuthScope
  | discover
  | event
  | ingestion
deriving DecidableEq, Repr

/-- Token response from the authentication endpoint (interface `TokenResponse`):
the two expiry fields are relative lifetimes in milliseconds. -/
structure TokenResponse where
  accessToken : String
  refreshToken : String
  accessTokenExpiry : Int
  refreshTokenExpiry : Int
deriving DecidableEq, Repr

/-- Refresh response (interface `RefreshTokenResponse`). -/
structure RefreshTokenResponse where
  accessToken : String
deriving DecidableEq, Repr

/-- Token storage with expiry tracking (interface `TokenStorage`):
the two fields here are absolute instants. -/
structure TokenStorage where
  accessToken : String
  refreshToken : String
  accessTokenExpiresAt : Int
  refreshTokenExpiresAt : Int
deriving DecidableEq, Repr

/-- The constructor arguments of `AuthManager`: `apiKey?`, `scopes`
(default all three), `accessTokenExpiry` (default 86400000 ms),
`refreshTokenExpiry` (default 604800000 ms). -/
structure AuthConfig where
  apiKey : Option String
  scopes : List AuthScope
  accessTokenExpiry : Int
  refreshTokenExpiry : Int
deriving DecidableEq, Repr

/-- The default scope list of the constructor. -/
def defaultScopes : List AuthScope :=
  [AuthScope.discover, AuthScope.event, AuthScope.ingestion]

/-- JavaScript truthiness of the optional `this.apiKey` string:
`undefined` and the empty string are falsy. -/
def truthyKey : Option String → Bool
  | none => false
  | some s => !s.isEmpty

/-- JavaScript truthiness of a settled `string | null` access-token value:
`null` and the empty string are falsy (the `if (accessToken)` test). -/
def jsFalsy : Option String → Bool
  | none => true
  | some t => t.isEmpty

/-- `isAccessTokenValid`: the stored access token is valid iff storage exists
and `Date.now() < accessTokenExpiresAt - 60000` (one-minute buffer). -/
def isAccessTokenValid (storage : Option TokenStorage) (now : Int) : Bool :=
  match storage with
  | none => false
  | some ts => decide (now < ts.accessTokenExpiresAt - 60000)

/-- `isRefreshTokenValid`: the stored refresh token is valid iff storage exists
and `Date.now() < refreshTokenExpiresAt` (no buffer). -/
def isRefreshTokenValid (storage : Option TokenStorage) (now : Int) : Bool :=
  match storage with
  | none => false
  | some ts => decide (now < ts.refreshTokenExpiresAt)

/-- `getTokenStatus`: `(hasTokens, accessTokenValid, refreshTokenValid)`. -/
def getTokenStatus (storage : Option TokenStorage) (now : Int) :
    Bool × Bool × Bool :=
  (storage.isSome, isAccessTokenValid storage now, isRefreshTokenValid storage now)

/-- The token storage written by a successful generation exchange:
absolute expiries are `now` plus the returned relative lifetimes. -/
def genStorage (resp : TokenResponse) (now : Int) : TokenStorage :=
  { accessToken := resp.accessToken
    refreshToken := resp.refreshToken
    accessTokenExpiresAt := now + resp.accessTokenExpiry
    refreshTokenExpiresAt := now + resp.refreshTokenExpiry }

/-- The token storage written by a successful refresh exchange: only the
access token is replaced and its expiry recomputed as `now` plus the
configured access-token lifetime; the refresh fields are untouched. -/
def refreshStorage (cfg : AuthConfig) (ts : TokenStorage)
    (resp : RefreshTokenResponse) (now : Int) : TokenStorage :=
  { ts with accessToken := resp.accessToken
            accessTokenExpiresAt := now + cfg.accessTokenExpiry }

/-- The expiry-ordering invariant claimed of a stored token pair. -/
def expiryInv (ts : TokenStorage) : Prop :=
  ts.accessTokenExpiresAt ≤ ts.refreshTokenExpiresAt

instance (ts : TokenStorage) : Decidable (expiryInv ts) := by
  unfold expiryInv
  infer_instance

deriving instance DecidableEq for Except

/-- Outcome of one sequential call of the private `getAccessToken`:
the settled value of the returned promise, the token storage afterwards,
and how many network round trips to the authentication endpoint were made. -/
structure RunResult where
  result : Except Unit (Option String)
  storage : Option TokenStorage
  calls : Nat
deriving DecidableEq, Repr

/-- `generateTokensFromApiKey`, with the network outcome supplied as
`genNet` (`none` = the POST failed).  With a falsy key it rejects at once
without a network call.  On success it stores `genStorage` and fulfils with
its access token; on failure the catch block only logs and rethrows, so the
previous storage is left unchanged. -/
def genRun (cfg : AuthConfig) (storage : Option TokenStorage) (now : Int)
    (genNet : Option TokenResponse) : RunResult :=
  if truthyKey cfg.apiKey then
    match genNet with
    | some resp =>
        { result := Except.ok (some (genStorage resp now).accessToken)
          storage := some (genStorage resp now)
          calls := 1 }
    | none =>
        { result := Except.error ()
          storage := storage
          calls := 1 }
  else
    { result := Except.error ()
      storage := storage
      calls := 0 }

/-- `refreshAccessToken`, with the network outcome supplied as `refreshNet`.
Without storage it rejects at once; on success it writes `refreshStorage`
and fulfils with the new access token; on failure the catch block clears
the storage and rethrows. -/
def refreshRun (cfg : AuthConfig) (storage : Option TokenStorage) (now : Int)
    (refreshNet : Option RefreshTokenResponse) : RunResult :=
  match storage with
  | none =>
      { result := Except.error ()
        storage := none
        calls := 0 }
  | some ts =>
      match refreshNet with
      | some resp =>
          { result := Except.ok (some resp.accessToken)
            storage := some (refreshStorage cfg ts resp now)
            calls := 1 }
      | none =>
          { result := Except.error ()
            storage := none
            calls := 1 }

/-- One sequential call of the private `getAccessToken` (no acquisition
already in flight): cached token if the access token is valid, else refresh
if the refresh token is valid, else full generation. -/
def getAccessTokenRun (cfg : AuthConfig) (storage : Option TokenStorage)
    (now : Int) (genNet : Option TokenResponse)
    (refreshNet : Option RefreshTokenResponse) : RunResult :=
  match storage with
  | some ts =>
      if isAccessTokenValid (some ts) now then
        { result := Except.ok (some ts.accessToken)
          storage := some ts
          calls := 0 }
      else if isRefreshTokenValid (some ts) now then
        refreshRun cfg (some ts) now refreshNet
      else
        genRun cfg (some ts) now genNet
  | none => genRun cfg none now genNet

/-- Outcome of one sequential call of the public `getAuthHeader`:
the settled promise value is a header list or a rejection. -/
structure HeaderResult where
  result : Except Unit (List (String × String))
  storage : Option TokenStorage
  calls : Nat
deriving DecidableEq, Repr

/-- Lines 81-90 of `getAuthHeader`: a truthy token yields a bearer header,
a falsy one (empty string or `null`) falls back to the raw key. -/
def headerFromToken (k : String) (v : Option String) :
    List (String × String) :=
  match v with
  | some t =>
      if t.isEmpty then [("Authorization", k)]
      else [("Authorization", "Bearer " ++ t)]
  | none => [("Authorization", k)]

/-- The token path of `getAuthHeader` (after the no-key and ingestion-only
checks): `await this.getAccessToken()` with no surrounding try/catch, so a
rejection propagates; a fulfilled value is mapped by `headerFromToken`. -/
def tokenPathRun (cfg : AuthConfig) (k : String)
    (storage : Option TokenStorage) (now : Int)
    (genNet : Option TokenResponse)
    (refreshNet : Option RefreshTokenResponse) : HeaderResult :=
  let run := getAccessTokenRun cfg storage now genNet refreshNet
  match run.result with
  | Except.error e =>
      { result := Except.error e, storage := run.storage, calls := run.calls }
  | Except.ok v =>
      { result := Except.ok (headerFromToken k v)
        storage := run.storage
        calls := run.calls }

/-- One sequential call of the public `getAuthHeader`. -/
def getAuthHeaderRun (cfg : AuthConfig) (storage : Option TokenStorage)
    (now : Int) (genNet : Option TokenResponse)
    (refreshNet : Option RefreshTokenResponse) : HeaderResult :=
  match cfg.apiKey with
  | none =>
      { result := Except.ok [], storage := storage, calls := 0 }
  | some k =>
      if k.isEmpty then
        { result := Except.ok [], storage := storage, calls := 0 }
      else if cfg.scopes.contains AuthScope.ingestion && cfg.scopes.length == 1 then
        { result := Except.ok [("Authorization", k)], storage := storage, calls := 0 }
      else
        tokenPathRun cfg k storage now genNet refreshNet

/-!
Concurrency model.  Execution is single-threaded and cooperative: a call of
`getAccessToken` runs synchronously up to returning (or the suspension of the
started network exchange), and the settlement of a network exchange — the
response handler, the `finally` that clears `tokenRefreshPromise`, and the
resumption of the awaiting callers — runs without interleaved caller code.
A system state tracks the manager fields, the acquisitions currently on the
wire (a list, so that duplicate in-flight network calls are representable),
a network-call counter, the callers awaiting the pending promise, and the
values delivered to callers so far.
-/

/-- The kind of a token acquisition on the wire. -/
inductive AcqKind
  | gen
  | refresh
deriving DecidableEq, Repr

/-- The manager instance fields plus network bookkeeping:
`marker` is whether `tokenRefreshPromise` is set, `pending` the acquisitions
currently on the wire, `networkCalls` the total round trips started. -/
structure MgrState where
  tokenStorage : Option TokenStorage
  marker : Bool
  pending : List AcqKind
  networkCalls : Nat
deriving DecidableEq, Repr

/-- A system state: manager plus the callers awaiting the pending promise
and the log of values delivered to callers. -/
structure SysState where
  mgr : MgrState
  waiters : List Nat
  resolved : List (Nat × Except Unit (Option String))
deriving DecidableEq, Repr

/-- The state right after construction: no storage, no pending promise. -/
def initSys : SysState :=
  { mgr := { tokenStorage := none, marker := false, pending := [], networkCalls := 0 }
    waiters := []
    resolved := [] }

/-- Caller `i` receives the settled value `v` immediately. -/
def resolveOne (s : SysState) (i : Nat) (v : Except Unit (Option String)) :
    SysState :=
  { s with resolved := s.resolved ++ [(i, v)] }

/-- Caller `i` starts an acquisition of kind `k`: the in-flight marker is
set, a network call goes on the wire, and the caller awaits the promise. -/
def startAcq (s : SysState) (i : Nat) (k : AcqKind) : SysState :=
  { s with
      mgr := { s.mgr with
                 marker := true
                 pending := s.mgr.pending ++ [k]
                 networkCalls := s.mgr.networkCalls + 1 }
      waiters := s.waiters ++ [i] }

/-- Caller `i` invokes `getAccessToken` at time `now`: if an acquisition is
in flight the caller awaits the same promise; else a valid access token is
returned from the cache; else a valid refresh token starts a refresh; else a
generation starts (rejecting at once on a falsy key). -/
def callStep (cfg : AuthConfig) (i : Nat) (now : Int) (s : SysState) :
    SysState :=
  if s.mgr.marker then { s with waiters := s.waiters ++ [i] }
  else
    match s.mgr.tokenStorage with
    | some ts =>
        if isAccessTokenValid (some ts) now then
          resolveOne s i (Except.ok (some ts.accessToken))
        else if isRefreshTokenValid (some ts) now then
          startAcq s i AcqKind.refresh
        else if truthyKey cfg.apiKey then
          startAcq s i AcqKind.gen
        else
          resolveOne s i (Except.error ())
    | none =>
        if truthyKey cfg.apiKey then
          startAcq s i AcqKind.gen
        else
          resolveOne s i (Except.error ())

/-- An acquisition settles: the head of the wire is consumed, the manager is
updated to `mgr`, the marker having been cleared by the `finally`, and every
awaiting caller receives the same settled value `v`. -/
def settleAll (s : SysState) (v : Except Unit (Option String))
    (mgr : MgrState) : SysState :=
  { mgr := mgr
    waiters := []
    resolved := s.resolved ++ s.waiters.map (fun i => (i, v)) }

/-- A generation exchange succeeds with response `resp` at time `now`. -/
def completeGenOk (resp : TokenResponse) (now : Int) (s : SysState) :
    SysState :=
  settleAll s (Except.ok (some (genStorage resp now).accessToken))
    { s.mgr with
        tokenStorage := some (genStorage resp now)
        marker := false
        pending := s.mgr.pending.tail }

/-- A generation exchange fails: the catch block rethrows without touching
the storage. -/
def completeGenFail (s : SysState) : SysState :=
  settleAll s (Except.error ())
    { s.mgr with marker := false, pending := s.mgr.pending.tail }

/-- A refresh exchange succeeds.  If the storage was cleared while the call
was on the wire, line 187 dereferences `undefined`; the resulting TypeError
is caught by the same catch block, which sets the storage to `undefined`
(already absent) and rethrows, so the callers see a rejection. -/
def completeRefreshOk (cfg : AuthConfig) (resp : RefreshTokenResponse)
    (now : Int) (s : SysState) : SysState :=
  match s.mgr.tokenStorage with
  | some ts =>
      settleAll s (Except.ok (some resp.accessToken))
        { s.mgr with
            tokenStorage := some (refreshStorage cfg ts resp now)
            marker := false
            pending := s.mgr.pending.tail }
  | none =>
      settleAll s (Except.error ())
        { s.mgr with
            tokenStorage := none
            marker := false
            pending := s.mgr.pending.tail }

/-- A refresh exchange fails: the catch block clears the storage and
rethrows. -/
def completeRefreshFail (s : SysState) : SysState :=
  settleAll s (Except.error ())
    { s.mgr with
        tokenStorage := none
        marker := false
        pending := s.mgr.pending.tail }

/-- `clearTokens`: only `this.tokenStorage` is reset. -/
def clearStep (s : SysState) : SysState :=
  { s with mgr := { s.mgr with tokenStorage := none } }

/-- One step of the cooperative system: a caller invocation, the settlement
of the acquisition at the head of the wire, or a `clearTokens` call. -/
inductive SysStep (cfg : AuthConfig) : SysState → SysState → Prop
  | call (i : Nat) (now : Int) (s : SysState) :
      SysStep cfg s (callStep cfg i now s)
  | genOk (resp : TokenResponse) (now : Int) (s : SysState)
      (h : s.mgr.pending.head? = some AcqKind.gen) :
      SysStep cfg s (completeGenOk resp now s)
  | genFail (s : SysState) (h : s.mgr.pending.head? = some AcqKind.gen) :
      SysStep cfg s (completeGenFail s)
  | refreshOk (resp : RefreshTokenResponse) (now : Int) (s : SysState)
      (h : s.mgr.pending.head? = some AcqKind.refresh) :
      SysStep cfg s (completeRefreshOk cfg resp now s)
  | refreshFail (s : SysState)
      (h : s.mgr.pending.head? = some AcqKind.refresh) :
      SysStep cfg s (completeRefreshFail s)
  | clear (s : SysState) : SysStep cfg s (clearStep s)

/-- The states reachable from construction. -/
inductive Reachable (cfg : AuthConfig) : SysState → Prop
  | init : Reachable cfg initSys
  | step {s t : SysState} : Reachable cfg s → SysStep cfg s t → Reachable cfg t

/-! Concrete instances used as counterexample inputs and witnesses. -/

/-- A manager configuration with the constructor defaults and a secret. -/
def cfgDemo : AuthConfig :=
  { apiKey := some "01-secret"
    scopes := defaultScopes
    accessTokenExpiry := 86400000
    refreshTokenExpiry := 604800000 }

/-- The short-lifetime configuration of the spec scenario example:
access lifetime 1000 ms, refresh lifetime 5000 ms. -/
def cfgShort : AuthConfig :=
  { apiKey := some "01-secret"
    scopes := defaultScopes
    accessTokenExpiry := 1000
    refreshTokenExpiry := 5000 }

/-- A manager configuration scoped to the single ingestion capability. -/
def cfgIngestion : AuthConfig :=
  { apiKey := some "01-secret"
    scopes := [AuthScope.ingestion]
    accessTokenExpiry := 86400000
    refreshTokenExpiry := 604800000 }

/-- A generation response whose access token is the empty string. -/
def respGenEmpty : TokenResponse :=
  { accessToken := ""
    refreshToken := "R9"
    accessTokenExpiry := 86400000
    refreshTokenExpiry := 604800000 }

/-- A generation response echoing the short configured lifetimes. -/
def respGen1 : TokenResponse :=
  { accessToken := "A1"
    refreshToken := "R1"
    accessTokenExpiry := 1000
    refreshTokenExpiry := 5000 }

/-- A refresh response carrying a new access token. -/
def respRefresh2 : RefreshTokenResponse := { accessToken := "A2" }

/-- The storage produced by a successful generation with `respGen1` at
time 0 under `cfgShort`. -/
def tsShort : TokenStorage :=
  { accessToken := "A1"
    refreshToken := "R1"
    accessTokenExpiresAt := 1000
    refreshTokenExpiresAt := 5000 }

/-- A stale pair whose access and refresh tokens are both long expired. -/
def tsStale : TokenStorage :=
  { accessToken := "A0"
    refreshToken := "R0"
    accessTokenExpiresAt := 100
    refreshTokenExpiresAt := 200 }

/-- A fresh pair, valid at time 0. -/
def tsFresh : TokenStorage :=
  { accessToken := "A"
    refreshToken := "R"
    accessTokenExpiresAt := 100000
    refreshTokenExpiresAt := 200000 }

/-- The storage left by refreshing `tsShort` with `respRefresh2` at
time 4900 under `cfgShort`: its access expiry exceeds its refresh expiry. -/
def tsViolating : TokenStorage :=
  { accessToken := "A2"
    refreshToken := "R1"
    accessTokenExpiresAt := 5900
    refreshTokenExpiresAt := 5000 }

/-- A system state with a refresh on the wire but the storage already
cleared (as after `clearTokens` during the exchange). -/
def sysClearedInFlight : SysState :=
  { mgr := { tokenStorage := none, marker := true, pending := [AcqKind.refresh], networkCalls := 1 }
    waiters := [7]
    resolved := [] }

/-- The state after one produce-header call at t = 0 under `cfgShort` and
its generation completing successfully with `respGen1`: storage `tsShort`,
nothing in flight, one network call made. -/
def sysAfterGen : SysState :=
  completeGenOk respGen1 0 (callStep cfgShort 0 0 initSys)

/-- Caller 1 invokes at t = 4900: the access token is inside the buffer,
the refresh token valid, so a refresh acquisition starts. -/
def sysRefreshing : SysState := callStep cfgShort 1 4900 sysAfterGen

/-- `clearTokens` is called while that refresh is on the wire. -/
def sysCleared : SysState := clearStep sysRefreshing

/-- Caller 2 invokes at t = 4950, after the clear. -/
def sysAfterClearCall : SysState := callStep cfgShort 2 4950 sysCleared

/-! Helper lemmas. -/

/-- One step preserves the wire-count bookkeeping relation. -/
theorem pending_step {cfg : AuthConfig} {s t : SysState}
    (hst : SysStep cfg s t)
    (ih : s.mgr.pending.length = (if s.mgr.marker then 1 else 0)) :
    t.mgr.pending.length = (if t.mgr.marker then 1 else 0) := by
  have hlenOf : s.mgr.pending.head? = some AcqKind.gen ∨
      s.mgr.pending.head? = some AcqKind.refresh →
      s.mgr.pending.length = 1 := by
    intro hhead
    cases hm : s.mgr.marker with
    | true => simpa [hm] using ih
    | false =>
        rw [hm] at ih
        simp only [if_neg Bool.false_ne_true] at ih
        rw [List.length_eq_zero.mp ih] at hhead
        simp at hhead
  cases hst with
  | call i now =>
      cases hm : s.mgr.marker with
      | true => simpa [callStep, hm] using ih
      | false =>
          rw [hm] at ih
          simp only [if_neg Bool.false_ne_true] at ih
          cases hts : s.mgr.tokenStorage with
          | some ts =>
              cases hav : isAccessTokenValid (some ts) now with
              | true => simpa [callStep, hm, hts, hav, resolveOne] using ih
              | false =>
                  cases hrv : isRefreshTokenValid (some ts) now with
                  | true => simp [callStep, hm, hts, hav, hrv, startAcq, ih]
                  | false =>
                      cases hk : truthyKey cfg.apiKey with
                      | true => simp [callStep, hm, hts, hav, hrv, hk, startAcq, ih]
                      | false =>
                          simpa [callStep, hm, hts, hav, hrv, hk, resolveOne] using ih
          | none =>
              cases hk : truthyKey cfg.apiKey with
              | true => simp [callStep, hm, hts, hk, startAcq, ih]
              | false => simpa [callStep, hm, hts, hk, resolveOne] using ih
  | genOk resp now _ hhead =>
      simp [completeGenOk, settleAll, List.length_tail, hlenOf (Or.inl hhead)]
  | genFail _ hhead =>
      simp [completeGenFail, settleAll, List.length_tail, hlenOf (Or.inl hhead)]
  | refreshOk resp now _ hhead =>
      cases hts : s.mgr.tokenStorage with
      | some ts =>
          simp [completeRefreshOk, hts, settleAll, List.length_tail,
            hlenOf (Or.inr hhead)]
      | none =>
          simp [completeRefreshOk, hts, settleAll, List.length_tail,
            hlenOf (Or.inr hhead)]
  | refreshFail _ hhead =>
      simp [completeRefreshFail, settleAll, List.length_tail,
        hlenOf (Or.inr hhead)]
  | clear => simpa [clearStep] using ih

/-- In every reachable state the number of acquisitions on the wire is 1
when `tokenRefreshPromise` is set and 0 when it is not. -/
theorem pending_length_eq {cfg : AuthConfig} {s : SysState}
    (h : Reachable cfg s) :
    s.mgr.pending.length = (if s.mgr.marker then 1 else 0) := by
  induction h with
  | init => rfl
  | step hr hst ih => exact pending_step hst ih

/-- Every settled value of `getAccessToken` is a rejection or a fulfilled
string: no branch produces a fulfilled `null`. -/
theorem run_result_shape (cfg : AuthConfig) (storage : Option TokenStorage)
    (now : Int) (genNet : Option TokenResponse)
    (refreshNet : Option RefreshTokenResponse) :
    (getAccessTokenRun cfg storage now genNet refreshNet).result = Except.error ()
  ∨ ∃ t : String,
      (getAccessTokenRun cfg storage now genNet refreshNet).result =
        Except.ok (some t) := by
  cases storage with
  | none =>
      cases hk : truthyKey cfg.apiKey with
      | false => simp [getAccessTokenRun, genRun, hk]
      | true => cases genNet <;> simp [getAccessTokenRun, genRun, hk]
  | some ts =>
      cases hav : isAccessTokenValid (some ts) now with
      | true => simp [getAccessTokenRun, hav]
      | false =>
          cases hrv : isRefreshTokenValid (some ts) now with
          | true =>
              cases refreshNet <;> simp [getAccessTokenRun, hav, hrv, refreshRun]
          | false =>
              cases hk : truthyKey cfg.apiKey with
              | false => simp [getAccessTokenRun, genRun, hav, hrv, hk]
              | true => cases genNet <;> simp [getAccessTokenRun, genRun, hav, hrv, hk]

/-- C5 (confirmed): the access token is judged valid iff a pair exists and
the current time is strictly below the stored access expiry minus 60000 ms;
the refresh token is judged valid iff a pair exists and the current time is
strictly below the stored refresh expiry with no buffer; and when the access
token is valid, `getAccessToken` returns the cached access token with no
network call and no state change. -/
theorem validity_predicates_and_cached_return
    (cfg : AuthConfig) (storage : Option TokenStorage) (now : Int)
    (genNet : Option TokenResponse)
    (refreshNet : Option RefreshTokenResponse) :
    (isAccessTokenValid storage now = true ↔
      ∃ ts, storage = some ts ∧ now < ts.accessTokenExpiresAt - 60000)
  ∧ (isRefreshTokenValid storage now = true ↔
      ∃ ts, storage = some ts ∧ now < ts.refreshTokenExpiresAt)
  ∧ (∀ ts, storage = some ts → isAccessTokenValid storage now = true →
      getAccessTokenRun cfg storage now genNet refreshNet =
        { result := Except.ok (some ts.accessToken)
          storage := storage
          calls := 0 }) := by
  refine ⟨?_, ?_, ?_⟩
  · cases storage with
    | none => simp [isAccessTokenValid]
    | some ts => simp [isAccessTokenValid]
  · cases storage with
    | none => simp [isRefreshTokenValid]
    | some ts => simp [isRefreshTokenValid]
  · intro ts hts hv
    subst hts
    simp [getAccessTokenRun, hv]

/-- Witness for C5 at a fresh pair and time 0. -/
theorem validity_predicates_and_cached_return_witness :
    isAccessTokenValid (some tsFresh) 0 = true
  ∧ getAccessTokenRun cfgDemo (some tsFresh) 0 none none =
      { result := Except.ok (some "A")
        storage := some tsFresh
        calls := 0 } := by
  refine ⟨by decide, ?_⟩
  have h := (validity_predicates_and_cached_return cfgDemo (some tsFresh) 0
    none none).2.2 tsFresh rfl (by decide)
  rw [h]; decide

/-- C6 (confirmed): with an expired-or-buffered access token and a valid
refresh token, a successful refresh replaces only the access token and sets
its expiry to now plus the configured access-token lifetime, leaving the
refresh token string and its expiry unchanged, in exactly one network call. -/
theorem refresh_updates_only_access_token
    (cfg : AuthConfig) (ts : TokenStorage) (now : Int)
    (genNet : Option TokenResponse) (resp : RefreshTokenResponse)
    (hav : isAccessTokenValid (some ts) now = false)
    (hrv : isRefreshTokenValid (some ts) now = true) :
    getAccessTokenRun cfg (some ts) now genNet (some resp) =
      { result := Except.ok (some resp.accessToken)
        storage := some
          { accessToken := resp.accessToken
            refreshToken := ts.refreshToken
            accessTokenExpiresAt := now + cfg.accessTokenExpiry
            refreshTokenExpiresAt := ts.refreshTokenExpiresAt }
        calls := 1 } := by
  simp [getAccessTokenRun, hav, hrv, refreshRun, refreshStorage]

/-- Witness for C6 in the spec scenario: refreshing at t = 4900 under the
short lifetimes. -/
theorem refresh_updates_only_access_token_witness :
    getAccessTokenRun cfgShort (some tsShort) 4900 none (some respRefresh2) =
      { result := Except.ok (some "A2")
        storage := some tsViolating
        calls := 1 } := by
  have h := refresh_updates_only_access_token cfgShort tsShort 4900 none
    respRefresh2 (by decide) (by decide)
  rw [h]; decide

/-- C7 (confirmed): with a nonempty secret and the scope list exactly the
single ingestion capability, `getAuthHeader` always returns the raw secret
unprefixed with no acquisition attempt; with more than one scope the
ingestion special case does not apply and the token path is taken. -/
theorem ingestion_only_scope_raw_key
    (cfg : AuthConfig) (k : String) (storage : Option TokenStorage) (now : Int)
    (genNet : Option TokenResponse) (refreshNet : Option RefreshTokenResponse)
    (hk : cfg.apiKey = some k) (hne : k.isEmpty = false) :
    (cfg.scopes = [AuthScope.ingestion] →
      getAuthHeaderRun cfg storage now genNet refreshNet =
        { result := Except.ok [("Authorization", k)]
          storage := storage
          calls := 0 })
  ∧ (1 < cfg.scopes.length →
      getAuthHeaderRun cfg storage now genNet refreshNet =
        tokenPathRun cfg k storage now genNet refreshNet) := by
  constructor
  · intro hs
    simp [getAuthHeaderRun, hk, hne, hs]
  · intro hlen
    have hne1 : cfg.scopes.length ≠ 1 := by omega
    simp [getAuthHeaderRun, hk, hne, hne1]

/-- Witness for C7: an ingestion-only manager returns the raw secret even
with a stale pair, and the default three-scope manager takes the token path. -/
theorem ingestion_only_scope_raw_key_witness :
    getAuthHeaderRun cfgIngestion (some tsStale) 0 none none =
      { result := Except.ok [("Authorization", "01-secret")]
        storage := some tsStale
        calls := 0 }
  ∧ getAuthHeaderRun cfgDemo none 0 (some respGen1) none =
      tokenPathRun cfgDemo "01-secret" none 0 (some respGen1) none := by
  constructor
  · exact (ingestion_only_scope_raw_key cfgIngestion "01-secret"
      (some tsStale) 0 none none rfl (by decide)).1 rfl
  · exact (ingestion_only_scope_raw_key cfgDemo "01-secret"
      none 0 (some respGen1) none rfl (by decide)).2 (by decide)

/-- C9 (confirmed): `getAccessToken`, despite its `string | null` result
type, never fulfils with `null`; hence the raw-secret fallback of
`getAuthHeader` is reachable only through a fulfilled empty-string token,
never through a `null` result. -/
theorem access_token_never_null
    (cfg : AuthConfig) (storage : Option TokenStorage) (now : Int)
    (genNet : Option TokenResponse)
    (refreshNet : Option RefreshTokenResponse) :
    (getAccessTokenRun cfg storage now genNet refreshNet).result ≠
      Except.ok none
  ∧ (∀ v, (getAccessTokenRun cfg storage now genNet refreshNet).result =
        Except.ok v → jsFalsy v = true → v = some "") := by
  have hshape := run_result_shape cfg storage now genNet refreshNet
  constructor
  · cases hshape with
    | inl h => rw [h]; intro hc; cases hc
    | inr h =>
        obtain ⟨t, ht⟩ := h
        rw [ht]; intro hc
        cases hc
  · intro v hv hfalsy
    cases hshape with
    | inl h => rw [h] at hv; cases hv
    | inr h =>
        obtain ⟨t, ht⟩ := h
        rw [ht] at hv
        cases hv
        have : t.isEmpty = true := hfalsy
        rw [(String.isEmpty_iff t).mp this]

/-- Witness for C9: a generation returning an empty access token yields a
fulfilled empty string, not null. -/
theorem access_token_never_null_witness :
    (getAccessTokenRun cfgDemo none 0 (some respGenEmpty) none).result ≠
      Except.ok none
  ∧ (getAccessTokenRun cfgDemo none 0 (some respGenEmpty) none).result =
      Except.ok (some "") := by
  have h := access_token_never_null cfgDemo none 0 (some respGenEmpty) none
  refine ⟨h.1, ?_⟩
  have := h.2 (some "") (by decide) (by decide)
  decide

/-- C1 (counterexample): with the secret configured, the default scopes and
a failing generation exchange, `getAuthHeader` rejects instead of returning
the raw-secret header: there is no try/catch around
`await this.getAccessToken()`, so the claimed fallback-on-failure does not
exist. -/
theorem auth_header_propagates_rejection :
    (getAuthHeaderRun cfgDemo none 0 none none).result = Except.error ()
  ∧ (getAuthHeaderRun cfgDemo none 0 none none).result ≠
      Except.ok [("Authorization", "01-secret")] := by decide

/-- C1 (amended): with a nonempty secret and a non-ingestion-only scope
list, `getAuthHeader` propagates a rejected acquisition to its caller; the
raw-secret fallback is returned only when the acquisition fulfils, in which
case the header is `headerFromToken` of the fulfilled value (raw secret on a
falsy value, bearer token otherwise). -/
theorem auth_header_fallback_only_on_falsy
    (cfg : AuthConfig) (k : String) (storage : Option TokenStorage)
    (now : Int) (genNet : Option TokenResponse)
    (refreshNet : Option RefreshTokenResponse)
    (hk : cfg.apiKey = some k) (hne : k.isEmpty = false)
    (hsc : (cfg.scopes.contains AuthScope.ingestion &&
      cfg.scopes.length == 1) = false) :
    ((getAccessTokenRun cfg storage now genNet refreshNet).result =
        Except.error () →
      (getAuthHeaderRun cfg storage now genNet refreshNet).result =
        Except.error ())
  ∧ (∀ v, (getAccessTokenRun cfg storage now genNet refreshNet).result =
        Except.ok v →
      (getAuthHeaderRun cfg storage now genNet refreshNet).result =
        Except.ok (headerFromToken k v)) := by
  have hsc2 : ¬(AuthScope.ingestion ∈ cfg.scopes ∧ cfg.scopes.length = 1) := by
    simpa using hsc
  constructor
  · intro h
    simp [getAuthHeaderRun, hk, hne, hsc2, tokenPathRun, h]
  · intro v h
    simp [getAuthHeaderRun, hk, hne, hsc2, tokenPathRun, h]

/-- Witness for the amended C1: a failing generation rejects, a successful
one yields a bearer header. -/
theorem auth_header_fallback_only_on_falsy_witness :
    (getAuthHeaderRun cfgDemo none 3 none none).result = Except.error ()
  ∧ (getAuthHeaderRun cfgDemo none 3 (some respGen1) none).result =
      Except.ok [("Authorization", "Bearer A1")] := by
  constructor
  · exact (auth_header_fallback_only_on_falsy cfgDemo "01-secret" none 3
      none none rfl (by decide) (by decide)).1 (by decide)
  · have h := (auth_header_fallback_only_on_falsy cfgDemo "01-secret" none 3
      (some respGen1) none rfl (by decide) (by decide)).2 (some "A1") (by decide)
    rw [h]; decide

/-- C3 (counterexample): with an expired pair in storage, a failing
generation exchange leaves the stale pair in place — `getTokenStatus` still
reports tokens present — contradicting the claim that any failed
acquisition resets the pair to absent. -/
theorem failed_generation_keeps_stale_pair :
    (getAccessTokenRun cfgDemo (some tsStale) 1000000 none none).result =
      Except.error ()
  ∧ (getAccessTokenRun cfgDemo (some tsStale) 1000000 none none).storage =
      some tsStale
  ∧ getTokenStatus
      (getAccessTokenRun cfgDemo (some tsStale) 1000000 none none).storage
      1000000 = (true, false, false) := by decide

/-- C3 (amended): a failed refresh exchange rejects and resets the pair to
absent (forcing generation next), while a failed generation exchange rejects
but leaves the stored pair exactly as it was — in particular a stale
pre-existing pair survives a failed generation. -/
theorem failed_acquisition_storage_effects
    (cfg : AuthConfig) (ts : TokenStorage) (storage : Option TokenStorage)
    (now : Int) (genNet : Option TokenResponse)
    (refreshNet : Option RefreshTokenResponse) :
    ((isAccessTokenValid (some ts) now = false) →
     (isRefreshTokenValid (some ts) now = true) →
      getAccessTokenRun cfg (some ts) now genNet none =
        { result := Except.error (), storage := none, calls := 1 })
  ∧ ((isAccessTokenValid storage now = false) →
      (isRefreshTokenValid storage now = false) →
      (getAccessTokenRun cfg storage now none refreshNet).result =
        Except.error ()
      ∧ (getAccessTokenRun cfg storage now none refreshNet).storage =
          storage) := by
  constructor
  · intro hav hrv
    simp [getAccessTokenRun, hav, hrv, refreshRun]
  · intro hav hrv
    cases storage with
    | none =>
        cases hk : truthyKey cfg.apiKey with
        | true => simp [getAccessTokenRun, genRun, hk]
        | false => simp [getAccessTokenRun, genRun, hk]
    | some ts2 =>
        cases hk : truthyKey cfg.apiKey with
        | true => simp [getAccessTokenRun, genRun, hav, hrv, hk]
        | false => simp [getAccessTokenRun, genRun, hav, hrv, hk]

/-- Witness for the amended C3: a failed refresh of a refreshable pair
clears the storage; a failed generation over the stale pair keeps it. -/
theorem failed_acquisition_storage_effects_witness :
    getAccessTokenRun cfgShort (some tsShort) 4900 none none =
      { result := Except.error (), storage := none, calls := 1 }
  ∧ (getAccessTokenRun cfgShort (some tsStale) 4900 none none).storage =
      some tsStale := by
  constructor
  · exact (failed_acquisition_storage_effects cfgShort tsShort
      (some tsShort) 4900 none none).1 (by decide) (by decide)
  · exact ((failed_acquisition_storage_effects cfgShort tsShort
      (some tsStale) 4900 none none).2 (by decide) (by decide)).2

/-- C4 (counterexample): the expiry-ordering invariant is not preserved.
`tsShort` is exactly the storage generated at time 0 from the short
lifetimes and satisfies the invariant, but a successful refresh at time
4900 recomputes the access expiry as now plus the configured access
lifetime, producing a pair whose access expiry 5900 exceeds its refresh
expiry 5000. -/
theorem refresh_violates_expiry_ordering :
    genStorage respGen1 0 = tsShort
  ∧ expiryInv tsShort
  ∧ (getAccessTokenRun cfgShort (some tsShort) 4900 none
      (some respRefresh2)).storage = some tsViolating
  ∧ ¬ expiryInv tsViolating := by decide

/-- C4 (amended): a successful generation establishes the expiry ordering
whenever the returned access lifetime is at most the returned refresh
lifetime, but a successful refresh preserves it only when now plus the
configured access lifetime does not exceed the stored refresh expiry; late
refreshes therefore break the invariant. -/
theorem expiry_ordering_conditions
    (cfg : AuthConfig) (resp : TokenResponse) (ts : TokenStorage)
    (rresp : RefreshTokenResponse) (now : Int) :
    (resp.accessTokenExpiry ≤ resp.refreshTokenExpiry →
      expiryInv (genStorage resp now))
  ∧ (expiryInv (refreshStorage cfg ts rresp now) ↔
      now + cfg.accessTokenExpiry ≤ ts.refreshTokenExpiresAt) := by
  constructor
  · intro h
    simp only [expiryInv, genStorage]
    omega
  · simp only [expiryInv, refreshStorage]

/-- Witness for the amended C4 at the short-lifetime configuration. -/
theorem expiry_ordering_conditions_witness :
    expiryInv (genStorage respGen1 4000)
  ∧ expiryInv (refreshStorage cfgShort tsShort respRefresh2 4000) := by
  have h := expiry_ordering_conditions cfgShort respGen1 tsShort
    respRefresh2 4000
  exact ⟨h.1 (by decide), h.2.mpr (by decide)⟩

/-- C2 (confirmed): in every reachable state at most one acquisition is on
the wire; a caller arriving while one is in flight is appended to the
waiters of the same pending promise with no state change to the manager (no
second network call); every completion — generation or refresh, success or
failure — clears the in-flight marker; and a successful generation settles
every waiter with the same token. -/
theorem acquisition_single_flight
    (cfg : AuthConfig) (s : SysState) (i : Nat) (now : Int)
    (resp : TokenResponse) (rresp : RefreshTokenResponse) :
    (Reachable cfg s → s.mgr.pending.length ≤ 1)
  ∧ (s.mgr.marker = true →
      callStep cfg i now s = { s with waiters := s.waiters ++ [i] })
  ∧ ((completeGenOk resp now s).mgr.marker = false
      ∧ (completeGenFail s).mgr.marker = false
      ∧ (completeRefreshOk cfg rresp now s).mgr.marker = false
      ∧ (completeRefreshFail s).mgr.marker = false)
  ∧ (completeGenOk resp now s).resolved =
      s.resolved ++ s.waiters.map
        (fun j => (j, Except.ok (some (genStorage resp now).accessToken))) := by
  refine ⟨?_, ?_, ⟨?_, ?_, ?_, ?_⟩, ?_⟩
  · intro h
    rw [pending_length_eq h]
    cases s.mgr.marker <;> simp
  · intro hm
    simp [callStep, hm]
  · simp [completeGenOk, settleAll]
  · simp [completeGenFail, settleAll]
  · cases hts : s.mgr.tokenStorage <;>
      simp [completeRefreshOk, hts, settleAll]
  · simp [completeRefreshFail, settleAll]
  · rfl

/-- Witness for C2 at the reachable state with a generation in flight. -/
theorem acquisition_single_flight_witness :
    (callStep cfgShort 0 0 initSys).mgr.pending.length ≤ 1
  ∧ callStep cfgShort 1 5 (callStep cfgShort 0 0 initSys) =
      { callStep cfgShort 0 0 initSys with waiters := [0, 1] }
  ∧ (completeGenFail (callStep cfgShort 0 0 initSys)).mgr.marker = false := by
  have h := acquisition_single_flight cfgShort (callStep cfgShort 0 0 initSys)
    1 5 respGen1 respRefresh2
  refine ⟨?_, ?_, h.2.2.1.2.1⟩
  · exact h.1 (Reachable.step Reachable.init (SysStep.call 0 0 initSys))
  · rw [h.2.1 (by decide)]; decide

/-- C8 (counterexample): `clearTokens` during an in-flight refresh.  The
status report after the clear is all-false, but the next produce-header
call joins the pre-clear pending refresh: no new network call is made, the
only acquisition on the wire is the old refresh, not a generation, so the
claim that the next call performs a full generation exchange is false. -/
theorem clear_during_refresh_blocks_generation :
    getTokenStatus sysCleared.mgr.tokenStorage 4950 = (false, false, false)
  ∧ sysAfterClearCall.mgr.networkCalls = sysCleared.mgr.networkCalls
  ∧ sysAfterClearCall.mgr.pending = [AcqKind.refresh]
  ∧ sysAfterClearCall.waiters = [1, 2] := by decide

/-- C8 (amended): after `clearTokens` the status report shows no tokens and
both validity booleans false, and — provided no acquisition is in flight at
that point — the next produce-header call starts a full generation exchange
(not a refresh and not a cached reuse). -/
theorem clear_tokens_status_and_next_call
    (cfg : AuthConfig) (s : SysState) (i : Nat) (now now2 : Int)
    (hkey : truthyKey cfg.apiKey = true)
    (hm : s.mgr.marker = false) :
    getTokenStatus (clearStep s).mgr.tokenStorage now = (false, false, false)
  ∧ callStep cfg i now2 (clearStep s) =
      startAcq (clearStep s) i AcqKind.gen := by
  constructor
  · simp [clearStep, getTokenStatus, isAccessTokenValid, isRefreshTokenValid]
  · simp [callStep, clearStep, hm, hkey]

/-- Witness for the amended C8 at the quiescent post-generation state. -/
theorem clear_tokens_status_and_next_call_witness :
    getTokenStatus (clearStep sysAfterGen).mgr.tokenStorage 0 =
      (false, false, false)
  ∧ callStep cfgShort 5 9999 (clearStep sysAfterGen) =
      startAcq (clearStep sysAfterGen) 5 AcqKind.gen := by
  exact clear_tokens_status_and_next_call cfgShort sysAfterGen 5 0 9999
    (by decide) (by decide)

/-- C10 (confirmed): `clearTokens` resets only the stored pair, leaving the
in-flight marker and the wire untouched; a call arriving with the marker
set awaits the pre-clear pending operation instead of starting a
generation; and a refresh completing successfully after the clear writes
through the absent storage, so the callers are settled with a rejection and
no pair is restored. -/
theorem clear_leaves_acquisition_state
    (cfg : AuthConfig) (s : SysState) (i : Nat) (now : Int)
    (rresp : RefreshTokenResponse) :
    ((clearStep s).mgr.marker = s.mgr.marker
      ∧ (clearStep s).mgr.pending = s.mgr.pending
      ∧ (clearStep s).mgr.networkCalls = s.mgr.networkCalls
      ∧ (clearStep s).mgr.tokenStorage = none)
  ∧ (s.mgr.marker = true →
      callStep cfg i now s = { s with waiters := s.waiters ++ [i] })
  ∧ (s.mgr.tokenStorage = none →
      (completeRefreshOk cfg rresp now s).mgr.tokenStorage = none
      ∧ (completeRefreshOk cfg rresp now s).resolved =
          s.resolved ++ s.waiters.map (fun j => (j, Except.error ()))) := by
  refine ⟨⟨rfl, rfl, rfl, rfl⟩, ?_, ?_⟩
  · intro hm
    simp [callStep, hm]
  · intro hts
    simp [completeRefreshOk, hts, settleAll]

/-- Witness for C10 at the cleared-while-refreshing state. -/
theorem clear_leaves_acquisition_state_witness :
    (clearStep sysClearedInFlight).mgr.marker = true
  ∧ callStep cfgShort 8 0 sysClearedInFlight =
      { sysClearedInFlight with waiters := [7, 8] }
  ∧ (completeRefreshOk cfgShort respRefresh2 0 sysClearedInFlight).mgr.tokenStorage
      = none
  ∧ (completeRefreshOk cfgShort respRefresh2 0 sysClearedInFlight).resolved =
      [(7, Except.error ())] := by
  have h := clear_leaves_acquisition_state cfgShort sysClearedInFlight 8 0
    respRefresh2
  refine ⟨?_, ?_, (h.2.2 rfl).1, ?_⟩
  · rw [h.1.1]; decide
  · rw [h.2.1 (by decide)]; decide
  · rw [(h.2.2 rfl).2]; decide

end SitecoreSearch
